import Mathlib

/-
Verification of the openptv-python-v2 correspondence/tracking bindings.

The definitions below are a shallow embedding of the repository's code:
C doubles become ℚ (the embedded code performs no arithmetic on them, only
copying and comparison), C arrays become lists, and C structs become Lean
structures.  Functions whose implementation lives in the external liboptv
library (absent from this repository) are either taken as explicit function
parameters or, where a claim requires their behaviour, modelled from the
specification (marked `Modelled from the spec:` in the doc comment).
-/

/-- The C struct `point3d_t` from `openptv/binding/optv.h`. -/
structure Point3d where
  x : ℚ
  y : ℚ
  z : ℚ
deriving DecidableEq

/-- The C struct `point2d_t` from `openptv/binding/optv.h`. -/
structure Point2d where
  x : ℚ
  y : ℚ
deriving DecidableEq

/-- `track_particles` from `openptv/binding/optv.c`: a placeholder that ignores
its arguments and returns 0 found trajectories.  The `trajectories`
out-parameter of the C function is passed as NULL by its only caller and never
written, so it is dropped here. -/
def track_particles (particles : List Point3d) (max_link_distance : ℚ) : Int :=
  0

/-- `find_correspondences` from `openptv/binding/optv.c`: a placeholder that
ignores its arguments and returns 0 found correspondences.  The
`correspondences` out-parameter is passed as NULL by its only caller and never
written, so it is dropped here. -/
def find_correspondences (points1 points2 : List Point2d) : Int :=
  0

/-- `track_particles_py` from `openptv/binding/tracking_cy.pyx`: copies the
input rows into a C array, calls `track_particles` (whose result is unused),
and returns the placeholder empty list of trajectories. -/
def track_particles_py (particles : List Point3d) (max_link_distance : ℚ) :
    List (List Int) :=
  let c_particles := particles
  let _num_trajectories := track_particles c_particles max_link_distance
  []

/-- `find_correspondences_py` from `openptv/binding/tracking_cy.pyx`: copies
both input arrays into C arrays, calls `find_correspondences` (whose result is
unused), and returns the placeholder empty array.  Entries, were there any,
would be pairs of indices of corresponding points per the docstring. -/
def find_correspondences_py (points1 points2 : List Point2d) :
    List (Int × Int) :=
  let c_points1 := points1
  let c_points2 := points2
  let _num_correspondences := find_correspondences c_points1 c_points2
  []

/-- Modelled from the spec: the Python class `TrackingParams`
(`openptv/parameters/tracking.py` is not under src/).  Spec §6 lists the
tracking configuration contents and `docs/migration_guide.md` documents the
class; the thirteen fields are exactly the dictionary keys the coptv bridge
(`openptv/coptv/param_bridge.pyx`) reads and writes. -/
structure TrackingParams where
  dvxmin : ℚ
  dvxmax : ℚ
  dvymin : ℚ
  dvymax : ℚ
  dvzmin : ℚ
  dvzmax : ℚ
  dangle : ℚ
  dacc : ℚ
  add : Int
  dsumg : Int
  dn : Int
  dnx : Int
  dny : Int
deriving DecidableEq

/-- The C struct `track_par` (its declaration, `openptv/coptv/parameters.pxd`,
is not under src/): the thirteen fields the bridge copies, with the same types
as the Python side since the bridge copies values verbatim. -/
structure track_par where
  dvxmin : ℚ
  dvxmax : ℚ
  dvymin : ℚ
  dvymax : ℚ
  dvzmin : ℚ
  dvzmax : ℚ
  dangle : ℚ
  dacc : ℚ
  add : Int
  dsumg : Int
  dn : Int
  dnx : Int
  dny : Int
deriving DecidableEq

/-- The dictionary produced by `TrackingParams.to_c_struct`, keyed exactly by
the thirteen entries `_tracking_params_to_c` reads. -/
structure TrackParDict where
  dvxmin : ℚ
  dvxmax : ℚ
  dvymin : ℚ
  dvymax : ℚ
  dvzmin : ℚ
  dvzmax : ℚ
  dangle : ℚ
  dacc : ℚ
  add : Int
  dsumg : Int
  dn : Int
  dnx : Int
  dny : Int
deriving DecidableEq

/-- Modelled from the spec: `TrackingParams.to_c_struct`
(`openptv/parameters/tracking.py` is not under src/).  Per
`openptv/parameters/README.md` it converts the parameter values to a
dictionary suitable for creating a C struct; the keys are the thirteen field
names. -/
def TrackingParams.to_c_struct (p : TrackingParams) : TrackParDict :=
  { dvxmin := p.dvxmin, dvxmax := p.dvxmax, dvymin := p.dvymin,
    dvymax := p.dvymax, dvzmin := p.dvzmin, dvzmax := p.dvzmax,
    dangle := p.dangle, dacc := p.dacc, add := p.add, dsumg := p.dsumg,
    dn := p.dn, dnx := p.dnx, dny := p.dny }

/-- Modelled from the spec: `TrackingParams.from_c_struct`
(`openptv/parameters/tracking.py` is not under src/).  Per
`openptv/parameters/README.md` it creates a `TrackingParams` object from the
dictionary of C-struct values. -/
def TrackingParams.from_c_struct (d : TrackParDict) : TrackingParams :=
  { dvxmin := d.dvxmin, dvxmax := d.dvxmax, dvymin := d.dvymin,
    dvymax := d.dvymax, dvzmin := d.dvzmin, dvzmax := d.dvzmax,
    dangle := d.dangle, dacc := d.dacc, add := d.add, dsumg := d.dsumg,
    dn := d.dn, dnx := d.dnx, dny := d.dny }

/-- `_tracking_params_to_c` from `openptv/coptv/param_bridge.pyx`: obtains the
parameter dictionary via `to_c_struct` and copies its thirteen entries into a
freshly allocated `track_par` struct.  No validation is performed. -/
def _tracking_params_to_c (params : TrackingParams) : track_par :=
  let param_dict := params.to_c_struct
  { dvxmin := param_dict.dvxmin, dvxmax := param_dict.dvxmax,
    dvymin := param_dict.dvymin, dvymax := param_dict.dvymax,
    dvzmin := param_dict.dvzmin, dvzmax := param_dict.dvzmax,
    dangle := param_dict.dangle, dacc := param_dict.dacc,
    add := param_dict.add, dsumg := param_dict.dsumg,
    dn := param_dict.dn, dnx := param_dict.dnx, dny := param_dict.dny }

/-- `tracking_params_from_c` from `openptv/coptv/param_bridge.pyx`: reads the
thirteen fields of the C struct into a dictionary and builds a
`TrackingParams` from it via `from_c_struct`. -/
def tracking_params_from_c (c_params : track_par) : TrackingParams :=
  let param_dict : TrackParDict :=
    { dvxmin := c_params.dvxmin, dvxmax := c_params.dvxmax,
      dvymin := c_params.dvymin, dvymax := c_params.dvymax,
      dvzmin := c_params.dvzmin, dvzmax := c_params.dvzmax,
      dangle := c_params.dangle, dacc := c_params.dacc,
      add := c_params.add, dsumg := c_params.dsumg,
      dn := c_params.dn, dnx := c_params.dnx, dny := c_params.dny }
  TrackingParams.from_c_struct param_dict

/-- Modelled from the spec: the Python class `VolumeParams`
(`openptv/parameters/volume.py` is not under src/).  Spec §6 lists the volume
configuration contents; the fields are exactly the dictionary keys the coptv
bridge reads and writes, with the two-element C arrays `X_lay`, `Zmin_lay`
and `Zmax_lay` embedded as pairs. -/
structure VolumeParams where
  X_lay : ℚ × ℚ
  Zmin_lay : ℚ × ℚ
  Zmax_lay : ℚ × ℚ
  cnx : ℚ
  cny : ℚ
  cn : ℚ
  csumg : ℚ
  corrmin : ℚ
  eps0 : ℚ
deriving DecidableEq

/-- The C struct `volume_par` (its declaration is not under src/): the fields
the bridge copies, two-element arrays embedded as pairs. -/
structure volume_par where
  X_lay : ℚ × ℚ
  Zmin_lay : ℚ × ℚ
  Zmax_lay : ℚ × ℚ
  cnx : ℚ
  cny : ℚ
  cn : ℚ
  csumg : ℚ
  corrmin : ℚ
  eps0 : ℚ
deriving DecidableEq

/-- Modelled from the spec: `VolumeParams.to_c_struct`
(`openptv/parameters/volume.py` is not under src/).  Per
`openptv/parameters/README.md` it converts the parameter values to a
dictionary suitable for creating a C struct. -/
def VolumeParams.to_c_struct (v : VolumeParams) : volume_par :=
  { X_lay := v.X_lay, Zmin_lay := v.Zmin_lay, Zmax_lay := v.Zmax_lay,
    cnx := v.cnx, cny := v.cny, cn := v.cn, csumg := v.csumg,
    corrmin := v.corrmin, eps0 := v.eps0 }

/-- `_volume_params_to_c` from `openptv/coptv/param_bridge.pyx`: obtains the
parameter dictionary via `to_c_struct` and copies the two layer bounds of each
array and the six scalar fields into a freshly allocated `volume_par` struct.
No validation is performed. -/
def _volume_params_to_c (params : VolumeParams) : volume_par :=
  let param_dict := params.to_c_struct
  { X_lay := (param_dict.X_lay.1, param_dict.X_lay.2),
    Zmin_lay := (param_dict.Zmin_lay.1, param_dict.Zmin_lay.2),
    Zmax_lay := (param_dict.Zmax_lay.1, param_dict.Zmax_lay.2),
    cnx := param_dict.cnx, cny := param_dict.cny, cn := param_dict.cn,
    csumg := param_dict.csumg, corrmin := param_dict.corrmin,
    eps0 := param_dict.eps0 }

/-- A detected 2D blob (spec §3 "Target"): pixel coordinates, summed gray
value and pixel count.  The tracker bridge passes targets through opaquely. -/
structure Target where
  x : ℚ
  y : ℚ
  sumg : Int
  n : Int
deriving DecidableEq

/-- The result dictionary returned by `track_forward_with_params`
(`openptv/binding/tracker_bridge.pyx`), with keys `links`, `lost`, `added`. -/
structure TrackResults where
  links : Int
  lost : Int
  added : Int
deriving DecidableEq

/-- `track_forward_with_params` from `openptv/binding/tracker_bridge.pyx`:
converts both parameter objects to C structs, initializes a tracking run via
the external liboptv calls `track_forward_start` / `trackcorr_c_finish`
(absent from this repository; they only touch C memory that is freed before
return and contribute nothing to the result), builds the result dictionary
with all three counters hard-coded to zero, and returns it. -/
def track_forward_with_params (targets : List Target)
    (track_params : TrackingParams) (vol_params : VolumeParams) :
    TrackResults :=
  let _c_track_params := _tracking_params_to_c track_params
  let _c_vol_params := _volume_params_to_c vol_params
  let results : TrackResults := { links := 0, lost := 0, added := 0 }
  results

/-- `py_vec_cmp` from `openptv/binding/vec_utils.pyx`: takes the dimension of
the first vector; if the second vector's length differs, returns 0 without
calling the underlying C comparison `vec_cmp` (declared extern from liboptv's
`vec_utils.h`, absent from this repository, hence taken here as an explicit
function parameter); otherwise returns `vec_cmp` applied to the two vectors. -/
def py_vec_cmp (vec_cmp : List ℚ → List ℚ → Int) (vec1 vec2 : List ℚ) :
    Int :=
  let dim := vec1.length
  if vec2.length ≠ dim then 0
  else vec_cmp vec1 vec2

/-- The C struct `orient_par` from `openptv/binding/orientation.pxd`: the
per-parameter enable flags of the Orientation Refiner (unsigned ints used as
booleans, embedded as `Bool`). -/
structure orient_par where
  useflag : Bool
  ccflag : Bool
  xhflag : Bool
  yhflag : Bool
  k1flag : Bool
  k2flag : Bool
  k3flag : Bool
  p1flag : Bool
  p2flag : Bool
  scxflag : Bool
  sheflag : Bool
  interfflag : Bool
deriving DecidableEq

/-- Modelled from the spec: the number of free (unmasked) parameters of the
orientation solve (spec §4.4: the parameter vector is masked by per-parameter
enable flags; the six exterior parameters are always solved for, and each
flagged interior/distortion/interface parameter adds one free parameter).
`useflag` selects the parameter-file variant and frees no parameter. -/
def numFreeParams (flags : orient_par) : Nat :=
  6 + ([flags.ccflag, flags.xhflag, flags.yhflag, flags.k1flag, flags.k2flag,
        flags.k3flag, flags.p1flag, flags.p2flag, flags.scxflag,
        flags.sheflag, flags.interfflag].count true)

/-- Exterior orientation of a camera (position and three angles), after the
`ext_par` fields marshalled in `openptv/binding/param_bridge.pyx`. -/
structure Exterior where
  x0 : ℚ
  y0 : ℚ
  z0 : ℚ
  omega : ℚ
  phi : ℚ
  kappa : ℚ
deriving DecidableEq

/-- Interior orientation of a camera (principal point and focal distance),
after the `int_par` fields marshalled in `openptv/binding/param_bridge.pyx`. -/
structure Interior where
  xh : ℚ
  yh : ℚ
  cc : ℚ
deriving DecidableEq

/-- A camera calibration, restricted to the exterior/interior blocks the
orientation claims mention. -/
structure Calibration where
  ext_par : Exterior
  int_par : Interior
deriving DecidableEq

/-- The distinct failure of a degenerate (singular / ill-conditioned)
least-squares system in the Orientation Refiner (spec §4.4, §7(c)). -/
inductive OrientError where
  | degenerateSystem
deriving DecidableEq

/-- Modelled from the spec: `orient` (liboptv `orientation.c`; only its extern
declaration appears in `openptv/binding/orientation.pxd`).  Spec §4.4: the
refiner solves a linearized least-squares system over the unmasked parameters
and, when the normal-equations matrix is singular — e.g. fewer reference
points than free parameters (Scenario E) — fails with a degenerate-system
error rather than returning a numeric result.  The iterative refinement on
the non-degenerate branch updates the calibration; its numerics are external
to the claims settled here and the branch returns the refined input. -/
def orient (cal_in : Calibration) (fix : List Point3d) (pix : List Target)
    (flags : orient_par) : Except OrientError Calibration :=
  if fix.length < numFreeParams flags then
    Except.error OrientError.degenerateSystem
  else
    Except.ok cal_in

/-- C1: Scenario A claims that for per-camera target lists of one static
synthetic 3D point visible in two cameras with zero noise,
`find_correspondences_py` returns exactly one candidate pair.  Evaluating the
code at such an input — the same projected detection (1/2, 1/2) in both
cameras — yields the empty correspondence list: the placeholder
implementation returns no candidate at all, contradicting its own docstring's
promise of an array of corresponding index pairs. -/
theorem C1_scenarioA_returns_no_candidate :
    find_correspondences_py [⟨1/2, 1/2⟩] [⟨1/2, 1/2⟩] = [] := rfl

/-- C2: Scenario B claims that for 3D positions of one particle moving at
constant velocity within bounds across 5 frames, `track_particles_py` returns
exactly one trajectory linking all 5 points.  Evaluating the code at such an
input — positions (0,0,0), (1,0,0), (2,0,0), (3,0,0), (4,0,0) with a linking
distance of 2 covering the unit step — yields the empty trajectory list: the
placeholder implementation returns no trajectory at all, contradicting its
own docstring's promise of a list of trajectories of particle indices. -/
theorem C2_scenarioB_returns_no_trajectory :
    track_particles_py
      [⟨0, 0, 0⟩, ⟨1, 0, 0⟩, ⟨2, 0, 0⟩, ⟨3, 0, 0⟩, ⟨4, 0, 0⟩] 2 = [] := rfl

/-- C3: running the correspondence and tracking operations twice on identical
inputs and identical configuration yields identical outputs.  The embedded
functions are pure (the placeholder C calls are deterministic and the Python
wrappers introduce no randomness or shared state), so equal inputs give equal
candidate sets, trajectory lists and result dictionaries. -/
theorem C3_two_run_determinism
    (points1 points2 points1' points2' : List Point2d)
    (particles particles' : List Point3d) (mld mld' : ℚ)
    (targets targets' : List Target) (tp tp' : TrackingParams)
    (vp vp' : VolumeParams)
    (h1 : points1 = points1') (h2 : points2 = points2')
    (h3 : particles = particles') (h4 : mld = mld')
    (h5 : targets = targets') (h6 : tp = tp') (h7 : vp = vp') :
    find_correspondences_py points1 points2 =
      find_correspondences_py points1' points2' ∧
    track_particles_py particles mld = track_particles_py particles' mld' ∧
    track_forward_with_params targets tp vp =
      track_forward_with_params targets' tp' vp' := by
  subst h1; subst h2; subst h3; subst h4; subst h5; subst h6; subst h7
  exact ⟨rfl, rfl, rfl⟩

/-- C3 witness: the determinism theorem applied at a concrete two-run input. -/
theorem C3_two_run_determinism_witness :
    find_correspondences_py [⟨1, 2⟩] [⟨3, 4⟩] =
      find_correspondences_py [⟨1, 2⟩] [⟨3, 4⟩] ∧
    track_particles_py [⟨0, 0, 0⟩] 1 = track_particles_py [⟨0, 0, 0⟩] 1 ∧
    track_forward_with_params [⟨5, 6, 7, 8⟩]
        ⟨0, 1, 0, 1, 0, 1, 2, 3, 1, 4, 5, 6, 7⟩
        ⟨(0, 1), (0, 0), (1, 1), 0, 0, 0, 0, 0, 1⟩ =
      track_forward_with_params [⟨5, 6, 7, 8⟩]
        ⟨0, 1, 0, 1, 0, 1, 2, 3, 1, 4, 5, 6, 7⟩
        ⟨(0, 1), (0, 0), (1, 1), 0, 0, 0, 0, 0, 1⟩ :=
  C3_two_run_determinism [⟨1, 2⟩] [⟨3, 4⟩] [⟨1, 2⟩] [⟨3, 4⟩]
    [⟨0, 0, 0⟩] [⟨0, 0, 0⟩] 1 1 [⟨5, 6, 7, 8⟩] [⟨5, 6, 7, 8⟩]
    ⟨0, 1, 0, 1, 0, 1, 2, 3, 1, 4, 5, 6, 7⟩
    ⟨0, 1, 0, 1, 0, 1, 2, 3, 1, 4, 5, 6, 7⟩
    ⟨(0, 1), (0, 0), (1, 1), 0, 0, 0, 0, 0, 1⟩
    ⟨(0, 1), (0, 0), (1, 1), 0, 0, 0, 0, 0, 1⟩
    rfl rfl rfl rfl rfl rfl rfl

/-- C5: in the accepted candidate set produced by `find_correspondences_py`,
each target is referenced by at most one accepted candidate pair — for every
input, each first-camera index and each second-camera index occurs at most
once among the returned pairs.  The placeholder output is empty, so every
reference count is zero. -/
theorem C5_target_exclusivity (points1 points2 : List Point2d) (t : Int) :
    ((find_correspondences_py points1 points2).countP
        (fun c => c.1 == t)) ≤ 1 ∧
    ((find_correspondences_py points1 points2).countP
        (fun c => c.2 == t)) ≤ 1 := by
  refine ⟨?_, ?_⟩ <;> simp [find_correspondences_py]

/-- C6: Scenario D — with the particle-addition flag `add` disabled, an
unlinkable current-frame candidate produces no new trajectory: the `added`
count of the tracking run stays zero (and no link is reported for it, the
`links` count also being zero).  The bridge constructs the result dictionary
with all counters hard-coded to zero, so the property holds for every run. -/
theorem C6_no_addition_when_flag_disabled (targets : List Target)
    (tp : TrackingParams) (vp : VolumeParams) (h : tp.add = 0) :
    (track_forward_with_params targets tp vp).added = 0 ∧
    (track_forward_with_params targets tp vp).links = 0 :=
  ⟨rfl, rfl⟩

/-- C6 witness: a run with the addition flag disabled and a concrete
unlinkable candidate target reports zero added trajectories. -/
theorem C6_no_addition_when_flag_disabled_witness :
    (⟨0, 1, 0, 1, 0, 1, 1, 1, 0, 0, 0, 0, 0⟩ : TrackingParams).add = 0 ∧
    ((track_forward_with_params [⟨9, 9, 100, 4⟩]
        ⟨0, 1, 0, 1, 0, 1, 1, 1, 0, 0, 0, 0, 0⟩
        ⟨(0, 1), (0, 0), (1, 1), 0, 0, 0, 0, 0, 1⟩).added = 0 ∧
      (track_forward_with_params [⟨9, 9, 100, 4⟩]
        ⟨0, 1, 0, 1, 0, 1, 1, 1, 0, 0, 0, 0, 0⟩
        ⟨(0, 1), (0, 0), (1, 1), 0, 0, 0, 0, 0, 1⟩).links = 0) :=
  ⟨rfl, C6_no_addition_when_flag_disabled [⟨9, 9, 100, 4⟩]
    ⟨0, 1, 0, 1, 0, 1, 1, 1, 0, 0, 0, 0, 0⟩
    ⟨(0, 1), (0, 0), (1, 1), 0, 0, 0, 0, 0, 1⟩ rfl⟩

/-- C7 counterexample: a tracking configuration with dvxmin = 1 > 0 = dvxmax
and a volume configuration with Zmin_lay = (1, 1) above Zmax_lay = (0, 0) are
not rejected at conversion time: `_tracking_params_to_c` and
`_volume_params_to_c` succeed and the contradictory bounds are copied into
the C structs and handed on to be used. -/
theorem C7_contradictory_bounds_accepted :
    (_tracking_params_to_c ⟨1, 0, 0, 0, 0, 0, 0, 0, 0, 0, 0, 0, 0⟩).dvxmin >
      (_tracking_params_to_c ⟨1, 0, 0, 0, 0, 0, 0, 0, 0, 0, 0, 0, 0⟩).dvxmax ∧
    (_volume_params_to_c ⟨(0, 0), (1, 1), (0, 0), 0, 0, 0, 0, 0, 0⟩).Zmin_lay.1 >
      (_volume_params_to_c ⟨(0, 0), (1, 1), (0, 0), 0, 0, 0, 0, 0, 0⟩).Zmax_lay.1 := by
  exact ⟨by norm_num [_tracking_params_to_c, TrackingParams.to_c_struct],
    by norm_num [_volume_params_to_c, VolumeParams.to_c_struct]⟩

/-- C7 amended: the conversion functions perform no validation at all — for
every configuration, including one whose minimum bound exceeds the
corresponding maximum, `_tracking_params_to_c` and `_volume_params_to_c`
succeed and copy every bound verbatim into the C structs; no configuration is
rejected before frame processing. -/
theorem C7_conversion_never_rejects (p : TrackingParams) (v : VolumeParams) :
    _tracking_params_to_c p =
      ⟨p.dvxmin, p.dvxmax, p.dvymin, p.dvymax, p.dvzmin, p.dvzmax,
       p.dangle, p.dacc, p.add, p.dsumg, p.dn, p.dnx, p.dny⟩ ∧
    _volume_params_to_c v =
      ⟨v.X_lay, v.Zmin_lay, v.Zmax_lay, v.cnx, v.cny, v.cn, v.csumg,
       v.corrmin, v.eps0⟩ :=
  ⟨rfl, rfl⟩

/-- C8: Scenario E — given fewer 3D reference points than free (unmasked)
parameters, the orientation refinement fails with the distinct
degenerate-system error and returns no numeric calibration result. -/
theorem C8_degenerate_system_failure (cal_in : Calibration)
    (fix : List Point3d) (pix : List Target) (flags : orient_par)
    (h : fix.length < numFreeParams flags) :
    orient cal_in fix pix flags = Except.error OrientError.degenerateSystem := by
  simp [orient, h]

/-- C8 witness: with every mask flag disabled there are six free exterior
parameters, and a refinement attempt with three reference points fails with
the degenerate-system error. -/
theorem C8_degenerate_system_failure_witness :
    ([⟨0, 0, 0⟩, ⟨1, 0, 0⟩, ⟨0, 1, 0⟩] : List Point3d).length <
      numFreeParams
        ⟨false, false, false, false, false, false, false, false, false,
         false, false, false⟩ ∧
    orient ⟨⟨0, 0, 0, 0, 0, 0⟩, ⟨0, 0, 1⟩⟩
        [⟨0, 0, 0⟩, ⟨1, 0, 0⟩, ⟨0, 1, 0⟩] []
        ⟨false, false, false, false, false, false, false, false, false,
         false, false, false⟩ =
      Except.error OrientError.degenerateSystem :=
  ⟨by decide,
   C8_degenerate_system_failure ⟨⟨0, 0, 0, 0, 0, 0⟩, ⟨0, 0, 1⟩⟩
     [⟨0, 0, 0⟩, ⟨1, 0, 0⟩, ⟨0, 1, 0⟩] []
     ⟨false, false, false, false, false, false, false, false, false,
      false, false, false⟩ (by decide)⟩

/-- C9: converting a `TrackingParams` to a C `track_par` struct with the coptv
bridge and converting back yields a `TrackingParams` whose thirteen fields
dvxmin, dvxmax, dvymin, dvymax, dvzmin, dvzmax, dangle, dacc, add, dsumg,
dn, dnx, dny equal those of the original — the round trip is the identity. -/
theorem C9_tracking_params_roundtrip (p : TrackingParams) :
    tracking_params_from_c (_tracking_params_to_c p) = p := by
  cases p
  rfl

/-- C10: for two double vectors of different lengths, `py_vec_cmp` returns 0
(not equal) without invoking the underlying C comparison: the result is 0 for
every choice of comparison function, hence independent of it. -/
theorem C10_length_mismatch_returns_zero
    (vec_cmp vec_cmp' : List ℚ → List ℚ → Int) (vec1 vec2 : List ℚ)
    (h : vec1.length ≠ vec2.length) :
    py_vec_cmp vec_cmp vec1 vec2 = 0 ∧
    py_vec_cmp vec_cmp vec1 vec2 = py_vec_cmp vec_cmp' vec1 vec2 := by
  have h2 : vec2.length ≠ vec1.length := fun e => h e.symm
  constructor <;> simp [py_vec_cmp, h2]

/-- C10 witness: a one-element vector against an empty vector compares to 0,
identically for two different underlying comparison functions. -/
theorem C10_length_mismatch_returns_zero_witness :
    ([(1 : ℚ)].length ≠ ([] : List ℚ).length) ∧
    (py_vec_cmp (fun v w => 1) [(1 : ℚ)] [] = 0 ∧
     py_vec_cmp (fun v w => 1) [(1 : ℚ)] [] =
       py_vec_cmp (fun v w => 37) [(1 : ℚ)] []) :=
  ⟨by decide,
   C10_length_mismatch_returns_zero (fun v w => 1) (fun v w => 37)
     [(1 : ℚ)] [] (by decide)⟩
